import Mathlib

/-!
# Verification of the geobot conversation core

A shallow embedding of the geobot Telegram bot (`src/bot/factory.py`,
`src/bot.py`): the result paginator, the callback-payload codec, the
per-chat state store operations and the router's dispatch filters, with
theorems about the behaviours the design document describes.

Python strings are modelled as Lean `String`; the single-character
`str.split` / `str.join` / `str.startswith` / slicing operations the bot
uses are embedded as executable functions over the underlying character
lists.
-/

namespace Geobot

/-! ## Python string primitives -/

/-- Character-list core of Python `s.split(sep)` for a one-character
separator: the (possibly empty) segments between occurrences of `sep`. -/
def splitOnSep (sep : Char) : List Char → List (List Char)
  | [] => [[]]
  | c :: cs =>
    if c = sep then [] :: splitOnSep sep cs
    else
      match splitOnSep sep cs with
      | [] => [[c]]
      | t :: ts => (c :: t) :: ts

/-- Character-list core of Python `sep.join(parts)`. -/
def joinSep (sep : Char) : List (List Char) → List Char
  | [] => []
  | [t] => t
  | t :: ts => t ++ sep :: joinSep sep ts

/-- Python `s.split(sep)` for a one-character separator. -/
def pySplit (sep : Char) (s : String) : List String :=
  (splitOnSep sep s.data).map String.mk

/-- Python `sep.join(parts)` for a one-character separator. -/
def pyJoin (sep : Char) (parts : List String) : String :=
  String.mk (joinSep sep (parts.map String.data))

/-- Python `s.startswith(pre)`. -/
def pyStartswith (s pre : String) : Bool :=
  pre.data.isPrefixOf s.data

/-- Python `s[1:]`: drop the first code point. -/
def pyDrop1 (s : String) : String :=
  String.mk (s.data.drop 1)

/-- Python `c in s` membership test for a one-character needle. -/
def pyContains (s : String) (c : Char) : Bool :=
  s.data.contains c

/-! ## Data model -/

/-- An inline-keyboard button: `(label, payload)`. -/
structure Button where
  text : String
  callback_data : String
deriving Repr, DecidableEq

/-- A location result as passed to `paginate_locations`:
`(display_name, (lat, lon))` with coordinates kept as exact text tokens,
the way `search` / `advanced_search` build them from the API response. -/
structure Loc where
  display_name : String
  lat : String
  lon : String
deriving Repr, DecidableEq

/-- An inline keyboard: a list of rows of buttons. -/
abbrev Keyboard := List (List Button)

/-- A coordinate text token free of the codec's separator characters, as
the numeric-text `lat` / `lon` values returned by the geocode API are. -/
def goodToken (t : String) : Bool :=
  !t.data.contains ':' && !t.data.contains '/'

/-! ## ResultPaginator (`paginate_locations`, factory.py lines 51-88) -/

/-- `[locations[i : i + 2] for i in range(0, len(locations), 2)]`:
chunks of two covering the whole list from index 0. -/
def chunksOf2 {α : Type} : List α → List (List α)
  | [] => []
  | [a] => [[a]]
  | a :: b :: rest => [a, b] :: chunksOf2 rest

/-- Payload of a single-location button: `f"{lat}:{lon}"` (factory.py line 66). -/
def coordPayload (l : Loc) : String := l.lat ++ ":" ++ l.lon

/-- Payload of a page button:
`"/".join(":".join(location[1]) for location in page)` (factory.py lines 76-78). -/
def pagePayload (page : List Loc) : String :=
  pyJoin '/' (page.map (fun l => pyJoin ':' [l.lat, l.lon]))

/-- `paginate_locations`: the first two results as full-width selectable rows;
when more than two results exist, one extra row of 1-indexed page buttons,
one per chunk of two of the whole list (the chunking starts at index 0). -/
def paginate_locations (locations : List Loc) : Keyboard :=
  (locations.take 2).map (fun l => [Button.mk l.display_name (coordPayload l)]) ++
    (if locations.length > 2 then
      [((chunksOf2 locations).enum).map
        (fun ip => Button.mk (toString (ip.1 + 1)) (pagePayload ip.2))]
    else [])

/-- The buttons of the trailing pagination part of the keyboard: everything
after the first `min 2 n` single-location rows, flattened. -/
def pageButtons (locations : List Loc) : List Button :=
  ((paginate_locations locations).drop ((locations.take 2).length)).flatten

/-! ## GeocodeClient (`get_locations`, factory.py lines 20-38) -/

/-- Truthiness of the optional `query` argument (Python: `None` and `""` are falsy). -/
def truthy : Option String → Bool
  | none => false
  | some q => !q.isEmpty

/-- The outgoing search request `get_locations` would perform. -/
inductive GeoRequest where
  | textSearch (q : String)
  | fieldSearch (fields : List (String × String))
deriving Repr, DecidableEq

/-- `get_locations`: validates its arguments, raising `ValueError` before any
network call when both or neither of `query` / `details` are supplied, and
otherwise performs exactly one kind of search request. -/
def get_locations (query : Option String) (details : List (String × String)) :
    Except String GeoRequest :=
  if !details.isEmpty && truthy query then
    Except.error "You can't use both query and details."
  else if !truthy query && details.isEmpty then
    Except.error "You must use either query or details."
  else if truthy query then
    Except.ok (GeoRequest.textSearch (query.getD ""))
  else
    Except.ok (GeoRequest.fieldSearch details)

/-! ## ChatStateStore (the `users` Deta base) -/

/-- A stored per-chat record in the `users` base: the `state` field
(Python `None` / `"search"` / `"advanced_search"`, with `none` = Idle) and
the `details` field (absent until first written by `add_details`). -/
structure UserRecord where
  state : Option String
  details : Option (List String)
deriving Repr, DecidableEq

/-- `start` (factory.py lines 116-137, bot.py lines 59-76):
`insert({"state": None})` for an unknown chat; when the key already exists
the insert raises and `update({"state": None})` runs instead — a partial
update that rewrites only the `state` attribute and leaves `details`
untouched. -/
def start : Option UserRecord → UserRecord
  | none => { state := none, details := none }
  | some r => { r with state := none }

/-- The stored selected-detail-field list is empty (absent or `[]`). -/
def detailsEmpty (r : UserRecord) : Bool :=
  r.details == none || r.details == some []

/-! ## Advanced-search detail toggling (`check_details`, `add_details`) -/

/-- The checkmark marker `"✔️"` (U+2714 U+FE0F, two code points) tested by
`button.text.startswith("✔️")`. -/
def checkMark : String := "✔️"

/-- The label update in `check_details`: prepend `"✔️ "` (three code points)
when the label does not yet start with the checkmark, else drop the first
code point (`button.text[1:]`). -/
def toggleText (t : String) : String :=
  if pyStartswith t checkMark then pyDrop1 t
  else checkMark ++ " " ++ t

/-- One button's update in `check_details`'s scan: toggle the label of the
button whose payload equals the pressed callback data. -/
def toggleButton (data : String) (b : Button) : Button :=
  if b.callback_data == data then Button.mk (toggleText b.text) b.callback_data
  else b

/-- `check_details` (factory.py lines 277-294, bot.py lines 196-213): scan
every row and button of the message's keyboard, toggling the checkmark on
the matching button, and re-render the keyboard. -/
def check_details (data : String) (markup : Keyboard) : Keyboard :=
  markup.map (fun row => row.map (toggleButton data))

/-- A sequence of detail-toggle presses applied to a keyboard. -/
def applyToggles (toggles : List String) (markup : Keyboard) : Keyboard :=
  toggles.foldl (fun kb d => check_details d kb) markup

/-- The per-button composite of a toggle sequence. -/
def applyTogglesBtn (toggles : List String) (b : Button) : Button :=
  toggles.foldl (fun b d => toggleButton d b) b

/-- A button counts as selected when its label starts with the checkmark. -/
def isSelected (b : Button) : Bool := pyStartswith b.text checkMark

/-- The selected details extracted by `add_details`:
`[button.callback_data for row in markup.keyboard for button in row
if button.text.startswith("✔️")]` — keyboard layout order. -/
def selectedDetails (markup : Keyboard) : List String :=
  markup.flatten.filterMap
    (fun b => if isSelected b then some b.callback_data else none)

/-- The six detail-field payloads in keyboard layout order; also the
dispatch filter list of `check_details`. -/
def fieldNames : List String :=
  ["country", "state", "county", "city", "street", "postal code"]

/-- The advanced-search keyboard rendered by `welcome_advanced_search`
(factory.py lines 163-193). -/
def advKeyboard : Keyboard :=
  [[Button.mk "🌎 Country" "country",
    Button.mk "State" "state",
    Button.mk "County" "county"],
   [Button.mk "🏙 City" "city",
    Button.mk "🛣 Street" "street",
    Button.mk "📮 Postal code" "postal code"],
   [Button.mk "🔍 Search" "search"]]

/-- `add_details` (factory.py lines 296-332): store the selected fields in
keyboard-scan order, or answer with the "need at least one detail" notice
when nothing is selected. -/
def add_details (markup : Keyboard) : Except Unit (List String) :=
  if (selectedDetails markup).isEmpty then Except.error ()
  else Except.ok (selectedDetails markup)

/-! ## Simple-search handlers (`search`) -/

/-- The geocode call's result as seen by a handler: the parsed location
list, or a network/parse failure (`GeocodeUnavailable`). -/
abbrev GeoOutcome := Except Unit (List Loc)

/-- What one run of a simple-search handler did: which notices were sent,
the stored state afterwards, and whether an exception escaped the handler. -/
structure SearchEffect where
  sentOops : Bool
  sentNoResults : Bool
  sentResults : Bool
  stateAfter : Option String
  raised : Bool
deriving Repr, DecidableEq

/-- `search` from `src/bot.py` (lines 135-172): the whole body runs inside
`try`; on any exception the generic apology is sent and then the exception
is re-raised (`raise exc`); the `users.update({"state": None})` reset sits
after the `try`/`except` block, so it runs only when no exception occurred. -/
def search_bot (stateBefore : Option String) (geo : GeoOutcome) : SearchEffect :=
  match geo with
  | Except.error _ =>
    { sentOops := true, sentNoResults := false, sentResults := false,
      stateAfter := stateBefore, raised := true }
  | Except.ok locs =>
    if locs.length == 0 then
      { sentOops := false, sentNoResults := true, sentResults := false,
        stateAfter := none, raised := false }
    else
      { sentOops := false, sentNoResults := false, sentResults := true,
        stateAfter := none, raised := false }

/-- `search` from `src/bot/factory.py` (lines 196-222): no `try` at all and
no state write; a geocode failure propagates and the state is untouched on
every path. -/
def search_factory (stateBefore : Option String) (geo : GeoOutcome) : SearchEffect :=
  match geo with
  | Except.error _ =>
    { sentOops := false, sentNoResults := false, sentResults := false,
      stateAfter := stateBefore, raised := true }
  | Except.ok locs =>
    if locs.length == 0 then
      { sentOops := false, sentNoResults := true, sentResults := false,
        stateAfter := stateBefore, raised := false }
    else
      { sentOops := false, sentNoResults := false, sentResults := true,
        stateAfter := stateBefore, raised := false }

/-! ## Page switching (`switch_page`, factory.py lines 244-271) -/

/-- `lat, lon = coord.split(":")`: succeeds exactly when the split has two
parts; any other shape makes the tuple unpacking raise. -/
def splitCoord (coord : String) : Option (String × String) :=
  match pySplit ':' coord with
  | [lat, lon] => some (lat, lon)
  | _ => none

/-- The decode loop of `switch_page` over `callback.data.split("/")`:
fails as soon as one coordinate fails to unpack. -/
def decodeCoords : List String → Option (List (String × String))
  | [] => some []
  | c :: cs =>
    match splitCoord c, decodeCoords cs with
    | some p, some ps => some (p :: ps)
    | _, _ => none

/-- Decoding of a page-switch payload. -/
def decodePage (data : String) : Option (List (String × String)) :=
  decodeCoords (pySplit '/' data)

/-- Re-encoding of a decoded page payload: each member as `f"{lat}:{lon}"`,
the list re-joined with `"/"` exactly as `paginate_locations` builds it. -/
def encodePage (pairs : List (String × String)) : String :=
  pyJoin '/' (pairs.map (fun p => p.1 ++ ":" ++ p.2))

/-- What one run of `switch_page` did: whether the message's keyboard was
edited, whether the "couldn't change page" callback notice was sent, and
whether an exception escaped the handler. -/
structure SwitchEffect where
  edited : Bool
  sentNotice : Bool
  raised : Bool
deriving Repr, DecidableEq

/-- `switch_page`: the payload decode and the per-member reverse lookups all
run before the `try`; only the final `edit_message_reply_markup` call is
guarded, and only its failure is answered with the "couldn't change page"
notice. `reverse` is the `location_name` collaborator, `editFails` says
whether the keyboard edit raises. -/
def switch_page (reverse : String → String → Except Unit String)
    (editFails : Bool) (data : String) : SwitchEffect :=
  match decodePage data with
  | none => { edited := false, sentNotice := false, raised := true }
  | some coords =>
    match coords.mapM (fun c => reverse c.1 c.2) with
    | Except.error _ => { edited := false, sentNotice := false, raised := true }
    | Except.ok _ =>
      if editFails then { edited := false, sentNotice := true, raised := false }
      else { edited := true, sentNotice := false, raised := false }

/-! ## Router dispatch filters -/

/-- The text-message filter `users.get(str(msg.chat.id))["state"] == "search"`
(factory.py lines 196-198): Deta `get` returns `None` for an unknown chat
and subscripting `None` raises `TypeError`. -/
def searchStateFilter (record : Option UserRecord) : Except Unit Bool :=
  match record with
  | none => Except.error ()
  | some r => Except.ok (r.state == some "search")

/-- The text-message filter of `advanced_search` (factory.py lines 334-337),
with the same `None`-subscript failure mode. -/
def advancedStateFilter (record : Option UserRecord) : Except Unit Bool :=
  match record with
  | none => Except.error ()
  | some r => Except.ok (r.state == some "advanced_search")

/-- The callback-query handlers of factory.py, in registration order. -/
inductive CbHandler where
  | showLocation
  | switchPage
  | checkDetails
  | addDetails
deriving Repr, DecidableEq

/-- Filter of `show_location`: `len(call.data.split(":")) == 2`. -/
def showLocationFilter (data : String) : Bool :=
  (pySplit ':' data).length == 2

/-- Filter of `switch_page`: `"/" in call.data`. -/
def switchPageFilter (data : String) : Bool :=
  pyContains data '/'

/-- Filter of `check_details`: payload is one of the six field names. -/
def checkDetailsFilter (data : String) : Bool :=
  fieldNames.contains data

/-- Filter of `add_details`: payload is the literal `"search"`. -/
def addDetailsFilter (data : String) : Bool :=
  data == "search"

/-- Callback dispatch: telebot tests callback-query handlers in registration
order (`show_location`, `switch_page`, `check_details`, `add_details`) and
the first filter that accepts the payload wins. -/
def dispatchCallback (data : String) : Option CbHandler :=
  if showLocationFilter data then some CbHandler.showLocation
  else if switchPageFilter data then some CbHandler.switchPage
  else if checkDetailsFilter data then some CbHandler.checkDetails
  else if addDetailsFilter data then some CbHandler.addDetails
  else none

/-- `show_location` (factory.py lines 224-242): unpack
`latitude, longitude = callback.data.split(":")`, delete the results
message and send a location at those coordinates. -/
def show_location (data : String) : Option (String × String) :=
  splitCoord data

/-- A concrete three-result list used as input for counterexamples. -/
def ex3 : List Loc :=
  [Loc.mk "A" "1" "2", Loc.mk "B" "3" "4", Loc.mk "C" "5" "6"]

/-- A stored record of a chat that confirmed an advanced search earlier. -/
def staleRecord : UserRecord :=
  { state := some "advanced_search", details := some ["city"] }

/-! ## String primitive lemmas -/

theorem mk_data (s : String) : String.mk s.data = s := rfl

theorem data_append (a b : String) : (a ++ b).data = a.data ++ b.data := by
  cases a
  cases b
  rfl

theorem splitOnSep_ne_nil (sep : Char) (s : List Char) : splitOnSep sep s ≠ [] := by
  cases s with
  | nil => simp [splitOnSep]
  | cons c cs =>
    simp only [splitOnSep]
    split
    · simp
    · split <;> simp

theorem splitOnSep_no_sep (sep : Char) (t : List Char) (h : sep ∉ t) :
    splitOnSep sep t = [t] := by
  induction t with
  | nil => rfl
  | cons c cs ih =>
    simp only [List.mem_cons, not_or] at h
    simp only [splitOnSep]
    rw [if_neg (fun hc => h.1 hc.symm)]
    rw [ih h.2]

theorem splitOnSep_append_sep (sep : Char) (t rest : List Char) (h : sep ∉ t) :
    splitOnSep sep (t ++ sep :: rest) = t :: splitOnSep sep rest := by
  induction t with
  | nil => simp [splitOnSep]
  | cons c cs ih =>
    simp only [List.mem_cons, not_or] at h
    simp only [List.cons_append, splitOnSep]
    rw [if_neg (fun hc => h.1 hc.symm)]
    rw [List.append_eq, ih h.2]

theorem splitOnSep_joinSep (sep : Char) (ts : List (List Char))
    (hne : ts ≠ []) (hsep : ∀ t ∈ ts, sep ∉ t) :
    splitOnSep sep (joinSep sep ts) = ts := by
  induction ts with
  | nil => exact absurd rfl hne
  | cons t ts ih =>
    cases ts with
    | nil =>
      simp only [joinSep]
      exact splitOnSep_no_sep sep t (hsep t (by simp))
    | cons t' ts' =>
      simp only [joinSep]
      rw [splitOnSep_append_sep sep t _ (hsep t (by simp))]
      rw [ih (by simp) (fun u hu => hsep u (List.mem_cons_of_mem t hu))]

theorem pySplit_pyJoin (sep : Char) (parts : List String)
    (hne : parts ≠ []) (hsep : ∀ p ∈ parts, sep ∉ p.data) :
    pySplit sep (pyJoin sep parts) = parts := by
  unfold pySplit pyJoin
  rw [show (String.mk (joinSep sep (parts.map String.data))).data
      = joinSep sep (parts.map String.data) from rfl]
  rw [splitOnSep_joinSep sep _ (by simpa using hne)
    (by intro t ht; obtain ⟨p, hp, rfl⟩ := List.mem_map.mp ht; exact hsep p hp)]
  rw [List.map_map]
  have hid : (String.mk ∘ String.data) = id := by
    funext s
    rfl
  rw [hid, List.map_id]

theorem pyJoin_pair (a b : String) (sep : Char) :
    pyJoin sep [a, b] = String.mk (a.data ++ sep :: b.data) := rfl

example : pySplit ':' "12.5:-3" = ["12.5", "-3"] := by decide
example : pyJoin '/' ["1:2", "3:4"] = "1:2/3:4" := by decide
example : pyStartswith "✔️ x" "✔️" = true := by decide
example : pyDrop1 "✔️ x" = "️ x" := by decide

/-! ## Paginator lemmas -/

theorem chunksOf2_length {α : Type} (l : List α) :
    (chunksOf2 l).length = (l.length + 1) / 2 := by
  induction l using chunksOf2.induct with
  | case1 => simp [chunksOf2]
  | case2 a => simp [chunksOf2]
  | case3 a b rest ih =>
    simp only [chunksOf2, List.length_cons, ih]
    omega

theorem pageButtons_def (l : List Loc) :
    pageButtons l =
      if l.length > 2 then
        ((chunksOf2 l).enum).map
          (fun ip => Button.mk (toString (ip.1 + 1)) (pagePayload ip.2))
      else [] := by
  unfold pageButtons paginate_locations
  rw [← List.length_map (l.take 2) (fun l => [Button.mk l.display_name (coordPayload l)])]
  rw [List.drop_left]
  split <;> simp

/-- C1 (amended): when `n > 2` the trailing pagination row holds
`ceil(n/2)` page buttons — one per chunk of two counted from the start of
the whole list, the first page included — labelled `1..ceil(n/2)`; when
`n ≤ 2` there are no page buttons. -/
theorem c1_page_button_count (l : List Loc) :
    (pageButtons l).length = (if 2 < l.length then (l.length + 1) / 2 else 0) ∧
    (pageButtons l).map Button.text =
      (List.range (if 2 < l.length then (l.length + 1) / 2 else 0)).map
        (fun i => toString (i + 1)) := by
  rw [pageButtons_def]
  by_cases h : l.length > 2
  · simp only [if_pos h]
    constructor
    · simp [chunksOf2_length]
    · rw [List.map_map]
      rw [show (Button.text ∘ fun ip : Nat × List Loc =>
          Button.mk (toString (ip.1 + 1)) (pagePayload ip.2))
          = (fun i => toString (i + 1)) ∘ Prod.fst from rfl]
      rw [← List.map_map, List.enum_map_fst, chunksOf2_length]
  · simp only [if_neg h]
    exact ⟨rfl, rfl⟩

/-- C1 counterexample: on a three-result list the code renders two page
buttons, not the `ceil(max(0, n-2)/2) = 1` the claim predicts. -/
theorem c1_counterexample :
    ¬ ((pageButtons ex3).length = (max 0 (ex3.length - 2) + 1) / 2) := by
  decide

/-! ## C7: mutual exclusion of query and details -/

/-- C7: `get_locations` returns a request (rather than raising `ValueError`
before any network call) exactly when precisely one of the text query
(non-empty, Python-truthy) and the detail-field set is supplied. -/
theorem c7_mutual_exclusion (query : Option String)
    (details : List (String × String)) :
    (get_locations query details).isOk = (truthy query == details.isEmpty) := by
  unfold get_locations
  cases hq : truthy query <;> cases hd : details.isEmpty <;>
    simp [hq, hd, Except.isOk, Except.toBool]

/-! ## C5: /start resets state but not the stored details -/

/-- C5 counterexample: a chat whose stored record carries
`details = ["city"]` still carries it after `/start`; the claim's
"empty selectedDetailFields" conjunct fails. -/
theorem c5_counterexample :
    ¬ ((start (some staleRecord)).state = none ∧
       detailsEmpty (start (some staleRecord)) = true) := by
  decide

/-- C5 (amended): `/start` always resets `state` to Idle (`None`), but the
`update({"state": None})` call is a partial update: the stored `details`
list is left exactly as it was (absent only for a brand-new chat). -/
theorem c5_start_resets_state_keeps_details (r : Option UserRecord) :
    (start r).state = none ∧
    (start r).details = Option.bind r UserRecord.details := by
  cases r <;> exact ⟨rfl, rfl⟩

/-! ## C3: simple-search outcome handling -/

/-- C3 counterexample: on a geocode failure in bot.py's `search`, the
exception is re-raised (`raise exc`) and the `users.update({"state": None})`
line after the `try` block never runs, so the state stays `"search"`. -/
theorem c3_counterexample :
    ¬ ((search_bot (some "search") (Except.error ())).raised = false ∧
       (search_bot (some "search") (Except.error ())).stateAfter = none) := by
  decide

/-- C3 (amended): in bot.py's `search` the state is cleared to Idle on
success and on zero results, and a geocode failure sends the generic
apology — but then re-raises, escaping the handler with the state
unchanged; factory.py's `search` never touches the state and lets the
failure propagate without any apology. -/
theorem c3_search_state_and_failure (s : Option String) (locs : List Loc) :
    (search_bot s (Except.ok locs)).stateAfter = none ∧
    (search_bot s (Except.ok locs)).raised = false ∧
    (search_bot s (Except.error ())).sentOops = true ∧
    (search_bot s (Except.error ())).raised = true ∧
    (search_bot s (Except.error ())).stateAfter = s ∧
    (search_factory s (Except.error ())).raised = true ∧
    (search_factory s (Except.error ())).sentOops = false ∧
    (search_factory s (Except.ok locs)).stateAfter = s := by
  refine ⟨?_, ?_, rfl, rfl, rfl, rfl, rfl, ?_⟩ <;>
    simp only [search_bot, search_factory] <;> split <;> rfl

/-! ## C9: dispatch filters on an unknown chat -/

/-- C9 counterexample: for a chat id absent from the `users` base the
simple-search dispatch filter does not evaluate to a boolean at all —
subscripting the `None` that Deta `get` returned raises. -/
theorem c9_counterexample :
    ¬ ((searchStateFilter none).isOk = true) := by decide

/-- C9 (amended): on a missing record both state-dispatch filters raise
(`None["state"]` is a `TypeError`); the event is not handled as Idle.
On a present record they evaluate to the expected boolean. -/
theorem c9_missing_record_filter_raises :
    searchStateFilter none = Except.error () ∧
    advancedStateFilter none = Except.error () ∧
    (∀ r : UserRecord,
      searchStateFilter (some r) = Except.ok (r.state == some "search")) :=
  ⟨rfl, rfl, fun _ => rfl⟩

/-! ## C4: switch_page failure handling -/

/-- C4 counterexample: with a failing reverse lookup and a healthy keyboard
edit, `switch_page` neither sends the "couldn't change page" notice nor
keeps the exception inside the handler — the lookup runs before the `try`. -/
theorem c4_counterexample :
    ¬ ((switch_page (fun _ _ => Except.error ()) false "1:2/3:4").sentNotice = true ∧
       (switch_page (fun _ _ => Except.error ()) false "1:2/3:4").raised = false) := by
  decide

/-- C4 (amended): during a page switch only a failure of the keyboard edit
itself is answered with the ephemeral notice (message unmodified); a
failing reverse lookup happens before the `try` and escapes the handler
uncaught, with no notice and no edit. -/
theorem c4_only_edit_failure_noticed
    (reverse : String → String → Except Unit String) (data : String)
    (coords : List (String × String)) (editFails : Bool)
    (hdecode : decodePage data = some coords) :
    ((coords.mapM (fun c => reverse c.1 c.2)).isOk = false →
      switch_page reverse editFails data = SwitchEffect.mk false false true) ∧
    ((coords.mapM (fun c => reverse c.1 c.2)).isOk = true →
      switch_page reverse editFails data =
        if editFails then SwitchEffect.mk false true false
        else SwitchEffect.mk true false false) := by
  cases hm : coords.mapM (fun c => reverse c.1 c.2) with
  | error e =>
    refine ⟨fun _ => ?_, fun h => ?_⟩
    · simp only [switch_page, hdecode, hm]
    · simp [Except.isOk, Except.toBool] at h
  | ok v =>
    refine ⟨fun h => ?_, fun _ => ?_⟩
    · simp [Except.isOk, Except.toBool] at h
    · simp only [switch_page, hdecode, hm]

/-- C4 witness: a concrete two-member page with healthy lookups and a
failing edit gets the notice and no edit. -/
theorem c4_witness :
    switch_page (fun _ _ => Except.ok "place") true "1:2/3:4" =
      SwitchEffect.mk false true false :=
  (c4_only_edit_failure_noticed (fun _ _ => Except.ok "place") "1:2/3:4"
    [("1", "2"), ("3", "4")] true (by decide)).2 (by decide)

/-! ## C2: the double-toggle label bug -/

/-- C2: toggling the same detail field twice restores the selected-field
membership but not the label: the untoggle branch `button.text[1:]` removes
one code point of the three-code-point prefix `"✔️ "` (U+2714 U+FE0F SPACE),
leaving `"\uFE0F State"` (U+FE0F, space, `State`) instead of `"State"`. -/
theorem c2_checkmark_slice_bug :
    check_details "state" (check_details "state" advKeyboard) ≠ advKeyboard ∧
    check_details "state" (check_details "state" advKeyboard) =
      [[Button.mk "🌎 Country" "country",
        Button.mk "\uFE0F State" "state",
        Button.mk "County" "county"],
       [Button.mk "🏙 City" "city",
        Button.mk "🛣 Street" "street",
        Button.mk "📮 Postal code" "postal code"],
       [Button.mk "🔍 Search" "search"]] ∧
    selectedDetails (check_details "state" (check_details "state" advKeyboard)) =
      selectedDetails advKeyboard := by
  decide

/-! ## C6: payload codec round trip -/

theorem string_eq_of_data (a b : String) (h : a.data = b.data) : a = b := by
  cases a
  cases b
  cases h
  rfl

theorem pyJoin_singleton (sep : Char) (t : String) : pyJoin sep [t] = t := rfl

theorem pyJoin_colon_pair (a b : String) : pyJoin ':' [a, b] = a ++ ":" ++ b := by
  apply string_eq_of_data
  rw [data_append, data_append, List.append_assoc]
  rfl

theorem goodToken_spec (t : String) (h : goodToken t = true) :
    ':' ∉ t.data ∧ '/' ∉ t.data := by
  unfold goodToken at h
  rw [Bool.and_eq_true, Bool.not_eq_true', Bool.not_eq_true'] at h
  exact ⟨by simpa using h.1, by simpa using h.2⟩

theorem splitCoord_pair (lat lon : String)
    (hlat : ':' ∉ lat.data) (hlon : ':' ∉ lon.data) :
    splitCoord (pyJoin ':' [lat, lon]) = some (lat, lon) := by
  unfold splitCoord
  rw [pySplit_pyJoin ':' [lat, lon] (by simp)
    (by intro p hp; rcases List.mem_pair.mp hp with rfl | rfl
        exacts [hlat, hlon])]

theorem decodeCoords_map (page : List Loc)
    (htok : ∀ l ∈ page, goodToken l.lat = true ∧ goodToken l.lon = true) :
    decodeCoords (page.map (fun l => pyJoin ':' [l.lat, l.lon])) =
      some (page.map (fun l => (l.lat, l.lon))) := by
  induction page with
  | nil => rfl
  | cons l rest ih =>
    have hl := htok l (by simp)
    simp only [List.map_cons, decodeCoords]
    rw [splitCoord_pair l.lat l.lon (goodToken_spec l.lat hl.1).1
        (goodToken_spec l.lon hl.2).1]
    rw [ih (fun x hx => htok x (List.mem_cons_of_mem l hx))]

theorem decodePage_pagePayload (page : List Loc) (hne : page ≠ [])
    (htok : ∀ l ∈ page, goodToken l.lat = true ∧ goodToken l.lon = true) :
    decodePage (pagePayload page) = some (page.map (fun l => (l.lat, l.lon))) := by
  unfold decodePage pagePayload
  rw [pySplit_pyJoin '/' _ (by simpa using hne)
    (by intro p hp
        obtain ⟨l, hl, rfl⟩ := List.mem_map.mp hp
        have hgood := htok l hl
        rw [show (pyJoin ':' [l.lat, l.lon]).data = l.lat.data ++ ':' :: l.lon.data
          from rfl]
        intro hm
        rcases List.mem_append.mp hm with h | h
        · exact (goodToken_spec l.lat hgood.1).2 h
        · rcases List.mem_cons.mp h with h | h
          · exact absurd h (by decide)
          · exact (goodToken_spec l.lon hgood.2).2 h)]
  exact decodeCoords_map page htok

theorem encodePage_coords (page : List Loc) :
    encodePage (page.map (fun l => (l.lat, l.lon))) = pagePayload page := by
  unfold encodePage pagePayload
  rw [List.map_map]
  congr 1
  exact List.map_congr_left (fun l _ => (pyJoin_colon_pair l.lat l.lon).symm)

theorem snd_mem_of_mem_enum {α : Type} {x : Nat × α} {l : List α}
    (h : x ∈ l.enum) : x.2 ∈ l := by
  have hm : x.2 ∈ l.enum.map Prod.snd := List.mem_map_of_mem Prod.snd h
  rwa [List.enum_map_snd] at hm

theorem chunksOf2_mem_ne_nil {α : Type} (l : List α) (page : List α)
    (h : page ∈ chunksOf2 l) : page ≠ [] := by
  induction l using chunksOf2.induct with
  | case1 => simp [chunksOf2] at h
  | case2 a => simp only [chunksOf2, List.mem_singleton] at h; simp [h]
  | case3 a b rest ih =>
    rcases List.mem_cons.mp h with h | h
    · simp [h]
    · exact ih h

theorem chunksOf2_mem_subset {α : Type} (l page : List α) (h : page ∈ chunksOf2 l)
    (x : α) (hx : x ∈ page) : x ∈ l := by
  induction l using chunksOf2.induct with
  | case1 => simp [chunksOf2] at h
  | case2 a =>
    simp only [chunksOf2, List.mem_singleton] at h
    subst h
    simpa using hx
  | case3 a b rest ih =>
    rcases List.mem_cons.mp h with h | h
    · subst h
      rcases List.mem_pair.mp hx with rfl | rfl <;> simp
    · exact List.mem_cons_of_mem a (List.mem_cons_of_mem b (ih h))

/-- C6: `paginate_locations` is deterministic — equal result lists give the
identical keyboard — and every page-button payload it generates round-trips
through `switch_page`'s decoding: splitting on `"/"` then `":"` and
re-encoding the same pairs yields the identical payload string, provided
the coordinate tokens are separator-free numeric text. -/
theorem c6_deterministic_roundtrip (l l' : List Loc) (hdet : l = l')
    (htok : ∀ loc ∈ l, goodToken loc.lat = true ∧ goodToken loc.lon = true) :
    paginate_locations l = paginate_locations l' ∧
    ∀ b ∈ pageButtons l,
      (decodePage b.callback_data).map encodePage = some b.callback_data := by
  subst hdet
  refine ⟨rfl, fun b hb => ?_⟩
  rw [pageButtons_def] at hb
  by_cases h : l.length > 2
  · rw [if_pos h] at hb
    obtain ⟨ip, hip, rfl⟩ := List.mem_map.mp hb
    have hmem : ip.2 ∈ chunksOf2 l := snd_mem_of_mem_enum hip
    have hne := chunksOf2_mem_ne_nil l ip.2 hmem
    have htok' : ∀ loc ∈ ip.2, goodToken loc.lat = true ∧ goodToken loc.lon = true :=
      fun loc hl => htok loc (chunksOf2_mem_subset l ip.2 hmem loc hl)
    show (decodePage (pagePayload ip.2)).map encodePage = some (pagePayload ip.2)
    rw [decodePage_pagePayload ip.2 hne htok', Option.map_some', encodePage_coords]
  · rw [if_neg h] at hb
    exact absurd hb (List.not_mem_nil b)

/-- C6 witness: the first page button of a three-result list carries
payload `"1:2/3:4"`, and decoding then re-encoding it is the identity. -/
theorem c6_witness :
    (decodePage "1:2/3:4").map encodePage = some "1:2/3:4" :=
  (c6_deterministic_roundtrip ex3 ex3 rfl (by decide)).2
    (Button.mk "1" "1:2/3:4") (by decide)

/-! ## C8: stored detail order is keyboard layout order -/

theorem applyToggles_map (toggles : List String) (kb : Keyboard) :
    applyToggles toggles kb = kb.map (fun row => row.map (applyTogglesBtn toggles)) := by
  induction toggles generalizing kb with
  | nil =>
    show kb = kb.map (fun row => row.map (applyTogglesBtn []))
    rw [show applyTogglesBtn [] = id from funext (fun b => rfl)]
    simp
  | cons d ds ih =>
    show applyToggles ds (check_details d kb) = _
    rw [ih]
    unfold check_details
    rw [List.map_map]
    refine List.map_congr_left (fun row _ => ?_)
    show (row.map (toggleButton d)).map (applyTogglesBtn ds) = _
    rw [List.map_map]
    rfl

theorem applyTogglesBtn_cd (toggles : List String) (b : Button) :
    (applyTogglesBtn toggles b).callback_data = b.callback_data := by
  induction toggles generalizing b with
  | nil => rfl
  | cons d ds ih =>
    show (applyTogglesBtn ds (toggleButton d b)).callback_data = _
    rw [ih]
    unfold toggleButton
    split <;> rfl

theorem startswith_drop_of_startswith (t : String)
    (h : pyStartswith t checkMark = true) :
    pyStartswith (pyDrop1 t) checkMark = false := by
  unfold pyStartswith at h
  show checkMark.data.isPrefixOf (pyDrop1 t).data = false
  rw [show (pyDrop1 t).data = t.data.drop 1 from rfl]
  rw [show checkMark.data = ['✔', '️'] from rfl] at h ⊢
  cases hd : t.data with
  | nil => rw [hd] at h; exact absurd h (by decide)
  | cons c cs =>
    cases hcs : cs with
    | nil =>
      rw [hcs] at hd
      rw [hd] at h
      simp only [List.isPrefixOf, Bool.and_eq_true] at h
      exact absurd h.2 (by decide)
    | cons c' cs' =>
      rw [hcs] at hd
      rw [hd] at h
      simp only [List.isPrefixOf, Bool.and_eq_true, beq_iff_eq] at h
      obtain ⟨h1, h2, -⟩ := h
      subst h1
      subst h2
      simp only [List.drop_succ_cons, List.drop_zero, List.isPrefixOf]
      rw [show (('✔' : Char) == '️') = false from by decide, Bool.false_and]

theorem startswith_prepend (t : String) :
    pyStartswith (checkMark ++ " " ++ t) checkMark = true := by
  unfold pyStartswith
  rw [data_append, data_append]
  rw [show checkMark.data = ['✔', '️'] from rfl,
      show (" " : String).data = [' '] from rfl]
  simp [List.isPrefixOf]

theorem isSelected_toggleText (t : String) :
    pyStartswith (toggleText t) checkMark = !(pyStartswith t checkMark) := by
  unfold toggleText
  by_cases h : pyStartswith t checkMark = true
  · rw [if_pos h, h, Bool.not_true]
    exact startswith_drop_of_startswith t h
  · rw [if_neg h]
    rw [Bool.not_eq_true] at h
    rw [h, Bool.not_false]
    exact startswith_prepend t

theorem parity_flip (cnt : Nat) : ((cnt + 1) % 2 == 1) = !(cnt % 2 == 1) := by
  rcases Nat.mod_two_eq_zero_or_one cnt with hc | hc
  · have hs : (cnt + 1) % 2 = 1 := by omega
    rw [hs, hc]
    decide
  · have hs : (cnt + 1) % 2 = 0 := by omega
    rw [hs, hc]
    decide

theorem isSelected_applyTogglesBtn (toggles : List String) (b : Button) :
    isSelected (applyTogglesBtn toggles b) =
      (isSelected b).xor (toggles.count b.callback_data % 2 == 1) := by
  induction toggles generalizing b with
  | nil => simp [applyTogglesBtn]
  | cons d ds ih =>
    show isSelected (applyTogglesBtn ds (toggleButton d b)) = _
    rw [ih]
    unfold toggleButton
    by_cases h : b.callback_data = d
    · rw [if_pos (by simp [h])]
      subst h
      rw [List.count_cons_self]
      rw [show isSelected (Button.mk (toggleText b.text) b.callback_data)
          = !(isSelected b) from isSelected_toggleText b.text]
      rw [parity_flip, Bool.not_xor, Bool.xor_not]
    · rw [if_neg (by simp [h])]
      rw [List.count_cons_of_ne h]

theorem filterMap_selected (l : List Button) (f : Button → Button)
    (p : String → Bool)
    (hcd : ∀ b ∈ l, (f b).callback_data = b.callback_data)
    (hsel : ∀ b ∈ l, isSelected (f b) = p b.callback_data) :
    (l.map f).filterMap
        (fun b => if isSelected b then some b.callback_data else none) =
      (l.map Button.callback_data).filter p := by
  induction l with
  | nil => rfl
  | cons b bs ih =>
    simp only [List.map_cons, List.filterMap_cons, List.filter_cons]
    rw [hsel b (by simp), hcd b (by simp)]
    rw [ih (fun x hx => hcd x (by simp [hx])) (fun x hx => hsel x (by simp [hx]))]
    by_cases hp : p b.callback_data = true <;> simp [hp]

theorem selectedDetails_map (f : Button → Button) (p : String → Bool)
    (rows : Keyboard)
    (hcd : ∀ b ∈ rows.flatten, (f b).callback_data = b.callback_data)
    (hsel : ∀ b ∈ rows.flatten, isSelected (f b) = p b.callback_data) :
    selectedDetails (rows.map (fun row => row.map f)) =
      (rows.flatten.map Button.callback_data).filter p := by
  unfold selectedDetails
  rw [show (rows.map (fun row => row.map f)).flatten = rows.flatten.map f from
    (List.map_flatten f rows).symm]
  exact filterMap_selected rows.flatten f p hcd hsel

/-- C8 counterexample: toggling `city` then `country` and confirming stores
`["country", "city"]` — the keyboard scan order — not the toggle order
`["city", "country"]` the claim predicts. -/
theorem c8_counterexample :
    ¬ (selectedDetails (applyToggles ["city", "country"] advKeyboard) =
        ["city", "country"]) := by
  decide

/-- C8 (amended): after any sequence of detail-field toggles, `add_details`
stores the fields whose toggle count is odd in the fixed keyboard layout
order (country, state, county, city, street, postal code) — the order the
user is then prompted in and the order the structured search parameters are
zipped in — not the order the user toggled them on. -/
theorem c8_layout_order (toggles : List String)
    (htog : ∀ t ∈ toggles, t ∈ fieldNames) :
    selectedDetails (applyToggles toggles advKeyboard) =
      fieldNames.filter (fun d => toggles.count d % 2 == 1) := by
  have hunsel : ∀ x ∈ advKeyboard.flatten, isSelected x = false := by decide
  rw [applyToggles_map]
  rw [selectedDetails_map (applyTogglesBtn toggles)
      (fun d => toggles.count d % 2 == 1) advKeyboard
      (fun b _ => applyTogglesBtn_cd toggles b)
      (fun b hb => by
        rw [isSelected_applyTogglesBtn, hunsel b hb, Bool.false_xor])]
  rw [show advKeyboard.flatten.map Button.callback_data
      = fieldNames ++ ["search"] from rfl]
  rw [List.filter_append]
  have hs : toggles.count "search" = 0 :=
    List.count_eq_zero.mpr (fun hm => by
      have hin := htog "search" hm
      simp [fieldNames] at hin)
  simp [hs]

/-- C8 witness: the toggle sequence `city`, `country` yields the stored
list `["country", "city"]`, matching the layout-order filter. -/
theorem c8_witness :
    selectedDetails (applyToggles ["city", "country"] advKeyboard) =
      fieldNames.filter
        (fun d => (["city", "country"] : List String).count d % 2 == 1) :=
  c8_layout_order ["city", "country"] (by decide)

/-! ## C10: an odd trailing page's button dispatches as a location -/

theorem chunksOf2_ne_nil {α : Type} (l : List α) (h : l ≠ []) :
    chunksOf2 l ≠ [] := by
  match l with
  | [] => exact absurd rfl h
  | [a] => simp [chunksOf2]
  | a :: b :: rest => simp [chunksOf2]

theorem getLast?_cons_of_ne_nil {α : Type} (x : α) (xs : List α) (h : xs ≠ []) :
    (x :: xs).getLast? = xs.getLast? := by
  obtain ⟨y, ys, rfl⟩ := List.exists_cons_of_ne_nil h
  exact List.getLast?_cons_cons

theorem chunksOf2_getLast_odd {α : Type} (l : List α) (hodd : l.length % 2 = 1) :
    (chunksOf2 l).getLast? = l.getLast?.map (fun x => [x]) := by
  induction l using chunksOf2.induct with
  | case1 => simp at hodd
  | case2 a => rfl
  | case3 a b rest ih =>
    have hodd' : rest.length % 2 = 1 := by
      simp only [List.length_cons] at hodd
      omega
    have hne : rest ≠ [] := by
      intro he
      rw [he] at hodd'
      simp at hodd'
    show ([a, b] :: chunksOf2 rest).getLast? = _
    rw [getLast?_cons_of_ne_nil _ _ (chunksOf2_ne_nil rest hne)]
    rw [ih hodd']
    rw [getLast?_cons_of_ne_nil a (b :: rest) (by simp)]
    rw [getLast?_cons_of_ne_nil b rest hne]

theorem enum_getLast? {α : Type} (l : List α) :
    l.enum.getLast? = l.getLast?.map (fun x => (l.length - 1, x)) := by
  rw [List.getLast?_eq_getElem?, List.getLast?_eq_getElem?, List.enum_length,
      List.getElem?_enum]

theorem pageButtons_getLast_odd (locs : List Loc) (hodd : locs.length % 2 = 1)
    (hgt : 2 < locs.length) :
    (pageButtons locs).getLast? =
      locs.getLast?.map
        (fun x => Button.mk (toString ((locs.length + 1) / 2)) (pagePayload [x])) := by
  rw [pageButtons_def, if_pos hgt]
  rw [List.getLast?_map, enum_getLast?, chunksOf2_getLast_odd locs hodd,
      chunksOf2_length]
  cases hx : locs.getLast? with
  | none => rfl
  | some x =>
    simp only [Option.map_some']
    have hidx : (locs.length + 1) / 2 - 1 + 1 = (locs.length + 1) / 2 := by omega
    rw [hidx]

theorem coordPayload_single_page (x : Loc) :
    pagePayload [x] = x.lat ++ ":" ++ x.lon := by
  show pyJoin '/' [pyJoin ':' [x.lat, x.lon]] = _
  rw [pyJoin_singleton]
  exact pyJoin_colon_pair x.lat x.lon

theorem pair_payload_no_slash (lat lon : String)
    (h1 : '/' ∉ lat.data) (h2 : '/' ∉ lon.data) :
    pyContains (lat ++ ":" ++ lon) '/' = false := by
  unfold pyContains
  rw [data_append, data_append]
  have hmem : '/' ∉ (lat.data ++ (":" : String).data) ++ lon.data := by
    intro hm
    rcases List.mem_append.mp hm with h | h
    · rcases List.mem_append.mp h with h | h
      · exact h1 h
      · exact absurd h (by decide)
    · exact h2 h
  simpa using hmem

theorem showLocationFilter_pair (lat lon : String)
    (hlat : ':' ∉ lat.data) (hlon : ':' ∉ lon.data) :
    showLocationFilter (lat ++ ":" ++ lon) = true := by
  unfold showLocationFilter
  rw [← pyJoin_colon_pair]
  rw [pySplit_pyJoin ':' [lat, lon] (by simp)
    (by intro p hp; rcases List.mem_pair.mp hp with rfl | rfl
        exacts [hlat, hlon])]
  rfl

theorem show_location_pair (lat lon : String)
    (hlat : ':' ∉ lat.data) (hlon : ':' ∉ lon.data) :
    show_location (lat ++ ":" ++ lon) = some (lat, lon) := by
  unfold show_location
  rw [← pyJoin_colon_pair]
  exact splitCoord_pair lat lon hlat hlon

theorem dispatch_pair (lat lon : String)
    (hlat : ':' ∉ lat.data) (hlon : ':' ∉ lon.data) :
    dispatchCallback (lat ++ ":" ++ lon) = some CbHandler.showLocation := by
  unfold dispatchCallback
  rw [showLocationFilter_pair lat lon hlat hlon]
  rfl

/-- C10: for an odd result count `n > 2` (separator-free coordinate
tokens), the final page of `chunksOf2` has exactly one member, so the last
page button's payload is a single slash-free `"lat:lon"` pair; the
`show_location` filter (`split(":")` length two), registered before the
`switch_page` filter (`"/" in data`), therefore captures the press, which
is handled as a location selection at the last result's coordinates. -/
theorem c10_odd_last_page_dispatch (locs : List Loc)
    (hodd : locs.length % 2 = 1) (hgt : 2 < locs.length)
    (htok : ∀ l ∈ locs, goodToken l.lat = true ∧ goodToken l.lon = true) :
    (chunksOf2 locs).getLast? = locs.getLast?.map (fun x => [x]) ∧
    (pageButtons locs).getLast? =
      locs.getLast?.map
        (fun x => Button.mk (toString ((locs.length + 1) / 2)) (pagePayload [x])) ∧
    ((pageButtons locs).getLast?).map (fun b => pyContains b.callback_data '/') =
      some false ∧
    ((pageButtons locs).getLast?).map (fun b => dispatchCallback b.callback_data) =
      some (some CbHandler.showLocation) ∧
    ((pageButtons locs).getLast?).map (fun b => show_location b.callback_data) =
      locs.getLast?.map (fun x => some (x.lat, x.lon)) := by
  have hne : locs ≠ [] := by
    intro he
    rw [he] at hgt
    simp at hgt
  obtain ⟨x, hx⟩ := Option.isSome_iff_exists.mp (List.getLast?_isSome.mpr hne)
  have hxmem : x ∈ locs := List.mem_of_mem_getLast? hx
  have hxtok := htok x hxmem
  have hlat := goodToken_spec x.lat hxtok.1
  have hlon := goodToken_spec x.lon hxtok.2
  have hpb := pageButtons_getLast_odd locs hodd hgt
  refine ⟨chunksOf2_getLast_odd locs hodd, hpb, ?_, ?_, ?_⟩
  · rw [hpb, hx]
    show some (pyContains (pagePayload [x]) '/') = some false
    rw [coordPayload_single_page x,
        pair_payload_no_slash x.lat x.lon hlat.2 hlon.2]
  · rw [hpb, hx]
    show some (dispatchCallback (pagePayload [x])) = some (some CbHandler.showLocation)
    rw [coordPayload_single_page x, dispatch_pair x.lat x.lon hlat.1 hlon.1]
  · rw [hpb, hx]
    show some (show_location (pagePayload [x])) = some (some (x.lat, x.lon))
    rw [coordPayload_single_page x, show_location_pair x.lat x.lon hlat.1 hlon.1]

/-- C10 witness: on the three-result list, the last page button is
`("2", "5:6")` and dispatches as a location selection at `("5", "6")`. -/
theorem c10_witness :
    (chunksOf2 ex3).getLast? = ex3.getLast?.map (fun x => [x]) ∧
    (pageButtons ex3).getLast? =
      ex3.getLast?.map
        (fun x => Button.mk (toString ((ex3.length + 1) / 2)) (pagePayload [x])) ∧
    ((pageButtons ex3).getLast?).map (fun b => pyContains b.callback_data '/') =
      some false ∧
    ((pageButtons ex3).getLast?).map (fun b => dispatchCallback b.callback_data) =
      some (some CbHandler.showLocation) ∧
    ((pageButtons ex3).getLast?).map (fun b => show_location b.callback_data) =
      ex3.getLast?.map (fun x => some (x.lat, x.lon)) :=
  c10_odd_last_page_dispatch ex3 (by decide) (by decide) (by decide)

end Geobot
